import Mathlib

/-!
Verification of the vocabulary-retrieval subsystem of the SkyHigh backend
(`app/utils/vectordb.py`).  The Python module is shallow-embedded below:
pandas data frames become `DataFrame` (lists of rows of optional string
cells, missing values standing for NaN), the LanceDB backend becomes an
explicit `Backend` record (directory state, API-reported table names, which
table names can actually be opened, and the stored rows sorted ascending by
distance), performed I/O is traced as a list of `Event`s, and the
module-level model cache becomes an explicit `ModelState` threaded through
calls.
-/

namespace SkyHigh

/-- A pandas data frame: column names plus rows of cells; a cell of `none`
models NaN / a missing value. -/
structure DataFrame where
  cols : List String
  rows : List (List (Option String))
  deriving Repr, DecidableEq

/-- The value of column `c` in one row, given the frame's column list:
`row[cols.indexOf c]`, `none` when absent. -/
def cellVal (cols : List String) (row : List (Option String)) (c : String) :
    Option String :=
  (row.get? (cols.indexOf c)).join

/-- The full column `c` of a frame, as `results[c].tolist()` would give it. -/
def DataFrame.col (df : DataFrame) (c : String) : List (Option String) :=
  df.rows.map (fun row => cellVal df.cols row c)

/-- Column selection `df[sel]`: keeps exactly the columns of `sel` in that
order; raises (returns `Except.error`) when any requested column is absent,
as pandas raises `KeyError`. -/
def projectCols (df : DataFrame) (sel : List String) :
    Except Unit DataFrame :=
  if sel.all (fun c => df.cols.contains c) then
    .ok { cols := sel
        , rows := df.rows.map (fun row => sel.map (fun c => cellVal df.cols row c)) }
  else
    .error ()

/-- The first column of a frame, `df.iloc[:, 0].tolist()`. -/
def ilocFirst (df : DataFrame) : List (Option String) :=
  df.rows.map (fun row => (row.get? 0).join)

/-- Errors raised by `fetch_vocab_from_vector_db`. -/
inductive Err where
  /-- `ValueError` for a level outside A1/A2/B1/B2 (line 47). -/
  | invalidLevel
  /-- `FileNotFoundError` when the LanceDB directory is missing (line 56). -/
  | dirNotFound (msg : String)
  /-- `FileNotFoundError` when no open attempt succeeded (line 163); carries
  the `error_msg_parts` list the code joins into the message. -/
  | indexNotFound (msgParts : List String)
  /-- pandas `KeyError` from the column projection at line 177. -/
  | keyError
  deriving Repr, DecidableEq

/-- I/O events performed by a call, in program order. -/
inductive Event where
  /-- `Path(db_path).exists()` check, line 53. -/
  | pathCheck
  /-- directory scan for `*.lance` entries, line 59. -/
  | listDir
  /-- `connect(db_path)`, line 63. -/
  | connect
  /-- the `table_names()` / `list_tables()` probe, lines 67-76. -/
  | listTables
  /-- `db.open_table(name)` attempt, lines 114 and 126. -/
  | openTable (name : String)
  /-- `_get_model()` call, line 167. -/
  | getModelCall
  /-- `model.encode(query)`, line 169. -/
  | encode
  /-- `table.search(...).limit(n).to_pandas()`, line 173. -/
  | search
  deriving Repr, DecidableEq

/-- The module-level `_model` cache: the cached instance (identified by the
construction counter value at its creation) and how many constructions have
happened in the process. -/
structure ModelState where
  cached : Option Nat
  constructCount : Nat
  deriving Repr, DecidableEq

/-- Fresh process state: `_model = None`, nothing constructed yet. -/
def initModelState : ModelState := { cached := none, constructCount := 0 }

/-- Embeds `_get_model` (lines 18-28): construct the SentenceTransformer
only when the cache is empty, else return the cached instance unchanged. -/
def get_model (s : ModelState) : Nat × ModelState :=
  match s.cached with
  | some m => (m, s)
  | none =>
      (s.constructCount,
       { cached := some s.constructCount, constructCount := s.constructCount + 1 })

/-- State after `k` successive `get_model` calls. -/
def iterGetModel : Nat → ModelState → ModelState
  | 0, s => s
  | k + 1, s => iterGetModel k (get_model s).2

/-- The environment a call runs against: the LanceDB storage directory and
connection, abstracted to what the code observes of them. -/
structure Backend where
  /-- the module-level `db_path` string. -/
  dbPath : String
  /-- whether `Path(db_path).exists()`. -/
  dbDirExists : Bool
  /-- entries of the storage directory (the code keeps those ending in
  `.lance`). -/
  dirEntries : List String
  /-- what `db.table_names()` reports; `[]` when the API yields nothing
  (no such method, an exception, or an empty listing — the code treats all
  three identically via truthiness). -/
  apiTables : List String
  /-- which table names `db.open_table` succeeds for. -/
  openOk : String → Bool
  /-- the stored records visible through the opened table, rows pre-sorted
  ascending by distance to the query; `search(...).limit(n)` takes a prefix. -/
  frame : DataFrame

/-- The accepted CEFR levels (line 45). -/
def validLevels : List String := ["A1", "A2", "B1", "B2"]

/-- Table-name selection, lines 88-106: exact match in the API listing
first, else the first case-insensitive match, else the canonical name. -/
def chooseTableName (dbName : String) (lancedb_table_names : List String) :
    String :=
  if lancedb_table_names ≠ [] then
    if dbName ∈ lancedb_table_names then dbName
    else
      match lancedb_table_names.find? (fun m => m.toLower == dbName.toLower) with
      | some m => m
      | none => dbName
  else dbName

/-- The spec's §4.2 step-2 name-resolution rule, stated in the spec's own
terms, to be compared with `chooseTableName` from the code: canonical
candidate if present verbatim in the enumeration, else the first
case-insensitive match, else the canonical candidate unchanged. -/
def resolveNameSpec (canonical : String) (enumNames : List String) : String :=
  if canonical ∈ enumNames then canonical
  else
    match enumNames.find? (fun m => m.toLower == canonical.toLower) with
    | some m => m
    | none => canonical

/-- The open-attempt sequence, lines 110-131: open the resolved name; on
failure retry once with the raw `dbName`, but only when the resolved name
was taken from the API listing.  Returns the name that opened (if any) and
the list of names attempted, in order. -/
def openTableStep (b : Backend) (dbName : String) :
    Option String × List String :=
  let lancedb_table_names := b.apiTables
  let table_name_to_use := chooseTableName dbName lancedb_table_names
  if b.openOk table_name_to_use then
    (some table_name_to_use, [table_name_to_use])
  else if lancedb_table_names ≠ [] ∧ table_name_to_use ∈ lancedb_table_names then
    if b.openOk dbName then (some dbName, [table_name_to_use, dbName])
    else (none, [table_name_to_use, dbName])
  else
    (none, [table_name_to_use])

/-- Renders a list of names the way the error message shows it. -/
def showStrList (l : List String) : String :=
  "[" ++ String.intercalate ", " l ++ "]"

/-- The `error_msg_parts` list built at lines 152-160 when every open
attempt failed. -/
def failMsgParts (table_name_to_use dbName : String)
    (available_tables lancedb_table_names : List String) (path : String) :
    List String :=
  ["Could not open table '" ++ table_name_to_use ++ "' (tried: '"
     ++ table_name_to_use ++ "', '" ++ dbName ++ "', '" ++ dbName ++ ".lance')."
  , "Last error: open_table failed."
  , "Available table directories: " ++ showStrList available_tables ++ "."]
  ++ (if lancedb_table_names ≠ []
      then ["LanceDB API reports tables: " ++ showStrList lancedb_table_names ++ "."]
      else [])
  ++ ["Database path: " ++ path ++ " (absolute: " ++ path ++ ")"]

/-- Column names probed at line 186. -/
def probeColumns : List String := ["word", "vocab", "text", "term", "vocabulary"]

/-- Result extraction, lines 176-202: project to the two known columns
(KeyError when absent), then — on a non-empty frame — probe the candidate
column names and take that column's first `n` values, falling back to the
first column; an empty frame yields `[]`. -/
def extract (results : DataFrame) (n : Nat) :
    Except Err (List (Option String)) :=
  match projectCols results ["german_term", "english_translation"] with
  | .error _ => .error .keyError
  | .ok r =>
    if !r.rows.isEmpty then
      match probeColumns.find? (fun col => r.cols.contains col) with
      | some vocab_column => .ok ((r.col vocab_column).take n)
      | none => .ok ((ilocFirst r).take n)
    else .ok []

/-- Embeds `fetch_vocab_from_vector_db` (lines 31-202).  Returns the
call's result, the I/O events it performed in order, and the model cache
state after the call. -/
def fetch_vocab_from_vector_db (b : Backend) (ms : ModelState)
    (_query : String) (level : String) (n : Nat) :
    Except Err (List (Option String)) × List Event × ModelState :=
  if !(validLevels.contains level) then
    (.error .invalidLevel, [], ms)
  else
    let dbName := level ++ "_MINIMAL_vocabulary"
    if !b.dbDirExists then
      (.error (.dirNotFound ("LanceDB directory not found at: " ++ b.dbPath)),
       [.pathCheck], ms)
    else
      let available_tables := b.dirEntries.filter (fun d => d.endsWith ".lance")
      let lancedb_table_names := b.apiTables
      let table_name_to_use := chooseTableName dbName lancedb_table_names
      let preEvents : List Event := [.pathCheck, .listDir, .connect, .listTables]
      match openTableStep b dbName with
      | (none, attempts) =>
          (.error (.indexNotFound
             (failMsgParts table_name_to_use dbName available_tables
                lancedb_table_names b.dbPath)),
           preEvents ++ attempts.map Event.openTable, ms)
      | (some _, attempts) =>
          let m := get_model ms
          let results : DataFrame :=
            { cols := b.frame.cols, rows := b.frame.rows.take n }
          (extract results n,
           preEvents ++ attempts.map Event.openTable
             ++ [.getModelCall, .encode, .search],
           m.2)

/-- One string occurs inside another, as explicit context strings. -/
def strContains (big small : String) : Prop :=
  ∃ u v, big = u ++ small ++ v

/-- The `error_msg_parts` a call for `level` produces when every open
attempt fails, as a function of the backend. -/
def fetchFailParts (b : Backend) (level : String) : List String :=
  failMsgParts (chooseTableName (level ++ "_MINIMAL_vocabulary") b.apiTables)
    (level ++ "_MINIMAL_vocabulary")
    (b.dirEntries.filter (fun d => d.endsWith ".lance"))
    b.apiTables b.dbPath

/-- A healthy backend: directory present, API lists the A1 table, opening
succeeds, and the table holds three records sorted by ascending distance. -/
def demoBackend : Backend :=
  { dbPath := "lancedb_data"
  , dbDirExists := true
  , dirEntries := ["A1_MINIMAL_vocabulary.lance"]
  , apiTables := ["A1_MINIMAL_vocabulary"]
  , openOk := fun _ => true
  , frame := { cols := ["german_term", "english_translation"]
             , rows := [[some "Brot", some "bread"],
                        [some "Bus", some "bus"],
                        [some "Bahnhof", some "train station"]] } }

/-- The same backend with the storage directory missing. -/
def noDirBackend : Backend := { demoBackend with dbDirExists := false }

/-- The spec's §8 fallback scenario: the API enumeration reports
`A1_MINIMAL_vocabulary`, but `open_table` only succeeds for
`a1_minimal.csv`. -/
def fallbackBackend : Backend :=
  { dbPath := "lancedb_data"
  , dbDirExists := true
  , dirEntries := []
  , apiTables := ["A1_MINIMAL_vocabulary"]
  , openOk := fun s => s == "a1_minimal.csv"
  , frame := { cols := [], rows := [] } }

/-- A backend where no table name can be opened at all. -/
def noOpenBackend : Backend :=
  { demoBackend with openOk := fun _ => false }

/-- The frame `to_pandas` yields for the spec's §8 partial-malformed-hit
example — hits carrying term Brot, then only an unrelated_field x, then
term Bus: pandas unions the field names into columns and fills the missing
cells with NaN. -/
def exampleHitsFrame : DataFrame :=
  { cols := ["term", "unrelated_field"]
  , rows := [[some "Brot", none], [none, some "x"], [some "Bus", none]] }

/-! Helper lemmas shared by the claim theorems. -/

theorem strAppend_assoc (a b c : String) : a ++ b ++ c = a ++ (b ++ c) := by
  apply String.ext
  simp [String.data_append, List.append_assoc]

theorem chooseTableName_eq_spec (dbName : String) (names : List String) :
    chooseTableName dbName names = resolveNameSpec dbName names := by
  unfold chooseTableName resolveNameSpec
  cases names with
  | nil => simp
  | cons a l => simp

theorem openTableStep_head (b : Backend) (dbName : String) :
    (openTableStep b dbName).2.head? = some (chooseTableName dbName b.apiTables) := by
  unfold openTableStep
  dsimp only
  split
  · rfl
  · split
    · split <;> rfl
    · rfl

theorem get_model_cached (m c : Nat) :
    get_model { cached := some m, constructCount := c } =
      (m, { cached := some m, constructCount := c }) := rfl

theorem iterGetModel_cached (k m c : Nat) :
    iterGetModel k { cached := some m, constructCount := c } =
      { cached := some m, constructCount := c } := by
  induction k with
  | zero => rfl
  | succ j ih => simpa [iterGetModel, get_model] using ih

theorem projectCols_known (df : DataFrame)
    (hg : "german_term" ∈ df.cols) (he : "english_translation" ∈ df.cols) :
    projectCols df ["german_term", "english_translation"] =
      .ok { cols := ["german_term", "english_translation"]
          , rows := df.rows.map (fun row =>
              [cellVal df.cols row "german_term",
               cellVal df.cols row "english_translation"]) } := by
  unfold projectCols
  rw [if_pos]
  · simp
  · simp [List.all_cons, List.all_nil, hg, he]

theorem extract_ok (df : DataFrame) (n : Nat)
    (hg : "german_term" ∈ df.cols) (he : "english_translation" ∈ df.cols) :
    extract df n = .ok ((df.col "german_term").take n) := by
  unfold extract
  rw [projectCols_known df hg he]
  by_cases hr : df.rows = []
  · simp [hr, DataFrame.col]
  · have hne : (df.rows.map (fun row =>
        [cellVal df.cols row "german_term",
         cellVal df.cols row "english_translation"])).isEmpty = false := by
      simp [List.isEmpty_iff, hr]
    simp only [hne, Bool.not_false, if_true]
    have hfind : probeColumns.find?
        (fun col => (["german_term", "english_translation"] : List String).contains col)
        = none := by rfl
    rw [hfind]
    dsimp only [ilocFirst, DataFrame.col]
    refine congrArg Except.ok (congrArg (List.take n) ?_)
    rw [List.map_map]
    refine List.map_congr_left ?_
    intro row _
    rfl

theorem fetch_vocab_success_eq (b : Backend) (ms : ModelState)
    (q level : String) (n : Nat)
    (hl : validLevels.contains level = true)
    (hd : b.dbDirExists = true)
    (t' : String) (att : List String)
    (hopen : openTableStep b (level ++ "_MINIMAL_vocabulary") = (some t', att)) :
    fetch_vocab_from_vector_db b ms q level n =
      (extract { cols := b.frame.cols, rows := b.frame.rows.take n } n,
       [.pathCheck, .listDir, .connect, .listTables] ++ att.map Event.openTable
         ++ [.getModelCall, .encode, .search],
       (get_model ms).2) := by
  unfold fetch_vocab_from_vector_db
  rw [hl, hd]
  dsimp only
  rw [hopen]
  simp

theorem fetch_vocab_fail_eq (b : Backend) (ms : ModelState)
    (q level : String) (n : Nat)
    (hl : validLevels.contains level = true)
    (hd : b.dbDirExists = true)
    (att : List String)
    (hopen : openTableStep b (level ++ "_MINIMAL_vocabulary") = (none, att)) :
    fetch_vocab_from_vector_db b ms q level n =
      (.error (.indexNotFound
         (failMsgParts (chooseTableName (level ++ "_MINIMAL_vocabulary") b.apiTables)
            (level ++ "_MINIMAL_vocabulary")
            (b.dirEntries.filter (fun d => d.endsWith ".lance"))
            b.apiTables b.dbPath)),
       [.pathCheck, .listDir, .connect, .listTables] ++ att.map Event.openTable,
       ms) := by
  unfold fetch_vocab_from_vector_db
  rw [hl, hd]
  dsimp only
  rw [hopen]
  simp

theorem openTableStep_all_fail (b : Backend) (dbName : String)
    (hfail : ∀ s, b.openOk s = false) :
    ∃ att, openTableStep b dbName = (none, att) := by
  unfold openTableStep
  dsimp only
  simp only [hfail]
  simp only [Bool.false_eq_true, if_false]
  split
  · exact ⟨_, rfl⟩
  · exact ⟨_, rfl⟩

theorem fetch_vocab_trace_opens (b : Backend) (ms : ModelState)
    (q level : String) (n : Nat)
    (hl : validLevels.contains level = true)
    (hd : b.dbDirExists = true) :
    ∃ rest, (fetch_vocab_from_vector_db b ms q level n).2.1 =
      [.pathCheck, .listDir, .connect, .listTables]
        ++ Event.openTable
             (chooseTableName (level ++ "_MINIMAL_vocabulary") b.apiTables) :: rest := by
  have hhead := openTableStep_head b (level ++ "_MINIMAL_vocabulary")
  rcases hstep : openTableStep b (level ++ "_MINIMAL_vocabulary") with ⟨o, att⟩
  rw [hstep] at hhead
  dsimp at hhead
  cases att with
  | nil => simp at hhead
  | cons a rest =>
    have ha : a = chooseTableName (level ++ "_MINIMAL_vocabulary") b.apiTables := by
      simpa using hhead
    subst ha
    cases o with
    | none =>
        rw [fetch_vocab_fail_eq b ms q level n hl hd _ hstep]
        exact ⟨rest.map Event.openTable, rfl⟩
    | some t' =>
        rw [fetch_vocab_success_eq b ms q level n hl hd t' _ hstep]
        exact ⟨rest.map Event.openTable ++ [.getModelCall, .encode, .search], by simp⟩

theorem failMsgParts_carries (t d : String) (avail api : List String) (path : String) :
    (∃ p ∈ failMsgParts t d avail api path, strContains p t ∧ strContains p d) ∧
    (api ≠ [] →
      ∃ p ∈ failMsgParts t d avail api path, strContains p (showStrList api)) ∧
    (∃ p ∈ failMsgParts t d avail api path, strContains p path) := by
  refine ⟨?_, ?_, ?_⟩
  · refine ⟨"Could not open table '" ++ t ++ "' (tried: '" ++ t ++ "', '" ++ d
        ++ "', '" ++ d ++ ".lance').", by simp [failMsgParts], ?_, ?_⟩
    · exact ⟨"Could not open table '",
        "' (tried: '" ++ t ++ "', '" ++ d ++ "', '" ++ d ++ ".lance').",
        by simp [strAppend_assoc]⟩
    · exact ⟨"Could not open table '" ++ t ++ "' (tried: '" ++ t ++ "', '",
        "', '" ++ d ++ ".lance').",
        by simp [strAppend_assoc]⟩
  · intro h
    refine ⟨"LanceDB API reports tables: " ++ showStrList api ++ ".",
      by simp [failMsgParts, h], "LanceDB API reports tables: ", ".",
      by simp [strAppend_assoc]⟩
  · refine ⟨"Database path: " ++ path ++ " (absolute: " ++ path ++ ")",
      by simp [failMsgParts], "Database path: ",
      " (absolute: " ++ path ++ ")", by simp [strAppend_assoc]⟩

/-! The claim theorems. -/

/-- C1, counterexample: on the spec's own example hits — term Brot, an
unrelated field only, term Bus — extraction does not return the two terms
with the malformed hit skipped; the column projection fails (pandas
KeyError), so the whole call errors. -/
theorem c1_counterexample :
    extract exampleHitsFrame 10 = .error .keyError ∧
    extract exampleHitsFrame 10 ≠ .ok [some "Brot", some "Bus"] := by
  refine ⟨rfl, ?_⟩
  rw [show extract exampleHitsFrame 10 = Except.error Err.keyError from rfl]
  simp

/-- C1, amended: extraction is column-based, not per-hit: the result frame
is projected to the german_term and english_translation columns, and any
hit set whose frame lacks the german_term column makes the whole extraction
fail with a KeyError instead of skipping the unusable hits. -/
theorem c1_column_extraction (df : DataFrame) (n : Nat)
    (hg : "german_term" ∉ df.cols) :
    extract df n = .error .keyError := by
  unfold extract projectCols
  rw [if_neg]
  simp [List.all_cons, hg]

/-- C1, witness: the amended theorem evaluated on the example hits. -/
theorem c1_witness :
    "german_term" ∉ exampleHitsFrame.cols ∧
    extract exampleHitsFrame 10 = .error .keyError :=
  ⟨by decide, c1_column_extraction exampleHitsFrame 10 (by decide)⟩

/-- C2: for a level outside A1/A2/B1/B2 the call fails with the
invalid-level error, performs no I/O event at all, and leaves the model
cache untouched. -/
theorem c2_invalid_level_no_io (b : Backend) (ms : ModelState)
    (q level : String) (n : Nat)
    (hl : validLevels.contains level = false) :
    fetch_vocab_from_vector_db b ms q level n = (.error .invalidLevel, [], ms) := by
  unfold fetch_vocab_from_vector_db
  rw [hl]
  rfl

/-- C2, witness: level C1 is rejected with no I/O. -/
theorem c2_witness :
    validLevels.contains "C1" = false ∧
    fetch_vocab_from_vector_db demoBackend initModelState "food" "C1" 10 =
      (.error .invalidLevel, [], initModelState) :=
  ⟨rfl, c2_invalid_level_no_io demoBackend initModelState "food" "C1" 10 rfl⟩

/-- C4: the name used for the first open attempt follows exactly the
spec's rule — verbatim enumeration match, else first case-insensitive
match, else (including an empty enumeration) the canonical candidate
unchanged; `chooseTableName` from the code coincides with the rule. -/
theorem c4_name_resolution_order (b : Backend) (dbName : String) :
    (openTableStep b dbName).2.head? = some (resolveNameSpec dbName b.apiTables) ∧
    chooseTableName dbName b.apiTables = resolveNameSpec dbName b.apiTables := by
  refine ⟨?_, chooseTableName_eq_spec dbName b.apiTables⟩
  rw [openTableStep_head, chooseTableName_eq_spec]

/-- C7: starting from the fresh process state, any positive number of
model-accessor calls constructs the model exactly once, and every further
call returns that same cached instance. -/
theorem c7_model_constructed_once (k : Nat) (hk : 1 ≤ k) :
    iterGetModel k initModelState = { cached := some 0, constructCount := 1 } ∧
    (get_model (iterGetModel k initModelState)).1 = 0 := by
  cases k with
  | zero => omega
  | succ j =>
    have h1 : iterGetModel (j + 1) initModelState =
        { cached := some 0, constructCount := 1 } := by
      show iterGetModel j (get_model initModelState).2 = _
      exact iterGetModel_cached j 0 1
    exact ⟨h1, by rw [h1]; rfl⟩

/-- C7, witness: after three calls the model was constructed once and the
cached instance is returned. -/
theorem c7_witness :
    1 ≤ 3 ∧
    (iterGetModel 3 initModelState = { cached := some 0, constructCount := 1 } ∧
     (get_model (iterGetModel 3 initModelState)).1 = 0) :=
  ⟨by decide, c7_model_constructed_once 3 (by decide)⟩

/-- C10: with a valid level but a missing storage directory, the call
fails with the directory-not-found error; the trace holds only the path
check, so no connection, no table open and no model load happened, and the
model cache is untouched. -/
theorem c10_missing_dir_no_io (b : Backend) (ms : ModelState)
    (q level : String) (n : Nat)
    (hl : validLevels.contains level = true)
    (hd : b.dbDirExists = false) :
    (fetch_vocab_from_vector_db b ms q level n).1 =
      .error (.dirNotFound ("LanceDB directory not found at: " ++ b.dbPath)) ∧
    (fetch_vocab_from_vector_db b ms q level n).2.1 = [Event.pathCheck] ∧
    Event.connect ∉ (fetch_vocab_from_vector_db b ms q level n).2.1 ∧
    (∀ s, Event.openTable s ∉ (fetch_vocab_from_vector_db b ms q level n).2.1) ∧
    Event.getModelCall ∉ (fetch_vocab_from_vector_db b ms q level n).2.1 ∧
    (fetch_vocab_from_vector_db b ms q level n).2.2 = ms := by
  have heq : fetch_vocab_from_vector_db b ms q level n =
      (.error (.dirNotFound ("LanceDB directory not found at: " ++ b.dbPath)),
       [Event.pathCheck], ms) := by
    unfold fetch_vocab_from_vector_db
    rw [hl, hd]
    rfl
  rw [heq]
  refine ⟨rfl, rfl, by simp, fun s => by simp, by simp, rfl⟩

/-- C10, witness: the missing-directory failure on a concrete backend. -/
theorem c10_witness :
    validLevels.contains "A1" = true ∧ noDirBackend.dbDirExists = false ∧
    ((fetch_vocab_from_vector_db noDirBackend initModelState "food" "A1" 10).1 =
       .error (.dirNotFound ("LanceDB directory not found at: " ++ noDirBackend.dbPath)) ∧
     (fetch_vocab_from_vector_db noDirBackend initModelState "food" "A1" 10).2.1 =
       [Event.pathCheck] ∧
     Event.connect ∉ (fetch_vocab_from_vector_db noDirBackend initModelState "food" "A1" 10).2.1 ∧
     (∀ s, Event.openTable s ∉
        (fetch_vocab_from_vector_db noDirBackend initModelState "food" "A1" 10).2.1) ∧
     Event.getModelCall ∉
       (fetch_vocab_from_vector_db noDirBackend initModelState "food" "A1" 10).2.1 ∧
     (fetch_vocab_from_vector_db noDirBackend initModelState "food" "A1" 10).2.2 =
       initModelState) :=
  ⟨rfl, rfl, c10_missing_dir_no_io noDirBackend initModelState "food" "A1" 10 rfl rfl⟩

/-- C3, counterexample: two successive successful calls for the same level
against the same backend — the second call, made in the model-cache state
the first call left behind, still connects and opens the table again; no
handle is cached. -/
theorem c3_counterexample :
    (fetch_vocab_from_vector_db demoBackend initModelState "food" "A1" 3).1 =
      .ok [some "Brot", some "Bus", some "Bahnhof"] ∧
    Event.connect ∈
      (fetch_vocab_from_vector_db demoBackend
        (fetch_vocab_from_vector_db demoBackend initModelState "food" "A1" 3).2.2
        "food" "A1" 3).2.1 ∧
    Event.openTable "A1_MINIMAL_vocabulary" ∈
      (fetch_vocab_from_vector_db demoBackend
        (fetch_vocab_from_vector_db demoBackend initModelState "food" "A1" 3).2.2
        "food" "A1" 3).2.1 := by
  refine ⟨rfl, by decide, by decide⟩

/-- C3, amended: resolution is never cached: every call with a valid level
and an existing storage directory connects to the backend and attempts to
open the resolved table name, whatever state earlier calls left behind. -/
theorem c3_no_handle_cache (b : Backend) (ms : ModelState)
    (q level : String) (n : Nat)
    (hl : validLevels.contains level = true)
    (hd : b.dbDirExists = true) :
    Event.connect ∈ (fetch_vocab_from_vector_db b ms q level n).2.1 ∧
    Event.openTable (chooseTableName (level ++ "_MINIMAL_vocabulary") b.apiTables) ∈
      (fetch_vocab_from_vector_db b ms q level n).2.1 := by
  obtain ⟨rest, hr⟩ := fetch_vocab_trace_opens b ms q level n hl hd
  rw [hr]
  constructor
  · simp
  · simp

/-- C3, amended witness: the second of the two calls of the counterexample
scenario still connects and opens. -/
theorem c3_witness :
    validLevels.contains "A1" = true ∧ demoBackend.dbDirExists = true ∧
    (Event.connect ∈
       (fetch_vocab_from_vector_db demoBackend
         (fetch_vocab_from_vector_db demoBackend initModelState "food" "A1" 3).2.2
         "food" "A1" 3).2.1 ∧
     Event.openTable
         (chooseTableName ("A1" ++ "_MINIMAL_vocabulary") demoBackend.apiTables) ∈
       (fetch_vocab_from_vector_db demoBackend
         (fetch_vocab_from_vector_db demoBackend initModelState "food" "A1" 3).2.2
         "food" "A1" 3).2.1) :=
  ⟨rfl, rfl,
   c3_no_handle_cache demoBackend
     (fetch_vocab_from_vector_db demoBackend initModelState "food" "A1" 3).2.2
     "food" "A1" 3 rfl rfl⟩

/-- C5, counterexample: in the spec's own scenario — the enumeration
reports A1_MINIMAL_vocabulary but only a1_minimal.csv can be opened —
resolution for level A1 does not succeed: the retry reuses the identical
canonical name, a1_minimal.csv is never attempted, and the call fails with
the index-not-found error. -/
theorem c5_counterexample :
    (fetch_vocab_from_vector_db fallbackBackend initModelState "food" "A1" 10).1 =
      .error (.indexNotFound (fetchFailParts fallbackBackend "A1")) ∧
    Event.openTable "a1_minimal.csv" ∉
      (fetch_vocab_from_vector_db fallbackBackend initModelState "food" "A1" 10).2.1 := by
  refine ⟨rfl, by decide⟩

/-- C5, amended: when opening the resolved name fails, exactly one retry
with the raw canonical name happens, and only when the resolved name came
from the backend enumeration; the retry reuses the canonical name
verbatim, so it can only succeed if that very name opens. -/
theorem c5_retry_only_from_enumeration (b : Backend) (dbName : String)
    (hfail : b.openOk (chooseTableName dbName b.apiTables) = false) :
    (openTableStep b dbName).2 =
      (if chooseTableName dbName b.apiTables ∈ b.apiTables
       then [chooseTableName dbName b.apiTables, dbName]
       else [chooseTableName dbName b.apiTables]) ∧
    (openTableStep b dbName).1 =
      (if chooseTableName dbName b.apiTables ∈ b.apiTables ∧ b.openOk dbName = true
       then some dbName else none) := by
  unfold openTableStep
  dsimp only
  rw [hfail]
  by_cases hmem : chooseTableName dbName b.apiTables ∈ b.apiTables
  · have hne : b.apiTables ≠ [] := by
      intro h
      rw [h] at hmem
      simp at hmem
    rw [if_neg (by simp), if_pos ⟨hne, hmem⟩, if_pos hmem]
    by_cases hok : b.openOk dbName = true
    · rw [if_pos hok, if_pos ⟨hmem, hok⟩]
      exact ⟨rfl, rfl⟩
    · rw [if_neg hok, if_neg (by exact fun hc => hok hc.2)]
      exact ⟨rfl, rfl⟩
  · rw [if_neg (by simp), if_neg (by exact fun hc => hmem hc.2),
      if_neg hmem, if_neg (by exact fun hc => hmem hc.1)]
    exact ⟨rfl, rfl⟩

/-- C5, amended witness: the retry characterization evaluated on the
fallback scenario backend. -/
theorem c5_witness :
    fallbackBackend.openOk
        (chooseTableName "A1_MINIMAL_vocabulary" fallbackBackend.apiTables) = false ∧
    ((openTableStep fallbackBackend "A1_MINIMAL_vocabulary").2 =
       (if chooseTableName "A1_MINIMAL_vocabulary" fallbackBackend.apiTables ∈
             fallbackBackend.apiTables
        then [chooseTableName "A1_MINIMAL_vocabulary" fallbackBackend.apiTables,
              "A1_MINIMAL_vocabulary"]
        else [chooseTableName "A1_MINIMAL_vocabulary" fallbackBackend.apiTables]) ∧
     (openTableStep fallbackBackend "A1_MINIMAL_vocabulary").1 =
       (if chooseTableName "A1_MINIMAL_vocabulary" fallbackBackend.apiTables ∈
             fallbackBackend.apiTables ∧
           fallbackBackend.openOk "A1_MINIMAL_vocabulary" = true
        then some "A1_MINIMAL_vocabulary" else none)) :=
  ⟨rfl, c5_retry_only_from_enumeration fallbackBackend "A1_MINIMAL_vocabulary" rfl⟩

/-- C6: on a successful call with the expected schema, the returned terms
are the german_term cells of the hits in their original ascending-distance
order (a map over the hit rows), the length equals min of n and the stored
row count, never exceeds n, and a shortfall of eligible records yields
exactly the available terms without padding or error. -/
theorem c6_order_and_truncation (b : Backend) (ms : ModelState)
    (q level : String) (n : Nat)
    (hl : validLevels.contains level = true)
    (hd : b.dbDirExists = true)
    (hopen : (openTableStep b (level ++ "_MINIMAL_vocabulary")).1.isSome = true)
    (hg : "german_term" ∈ b.frame.cols)
    (he : "english_translation" ∈ b.frame.cols) :
    ∃ terms, (fetch_vocab_from_vector_db b ms q level n).1 = .ok terms ∧
      terms = (b.frame.rows.take n).map
          (fun row => cellVal b.frame.cols row "german_term") ∧
      terms.length = min n b.frame.rows.length ∧
      terms.length ≤ n ∧
      (b.frame.rows.length < n → terms.length = b.frame.rows.length) := by
  obtain ⟨t', att, h⟩ :
      ∃ t' att, openTableStep b (level ++ "_MINIMAL_vocabulary") = (some t', att) := by
    rcases hh : openTableStep b (level ++ "_MINIMAL_vocabulary") with ⟨o, att⟩
    cases o with
    | none => rw [hh] at hopen; simp at hopen
    | some t' => exact ⟨t', att, rfl⟩
  rw [fetch_vocab_success_eq b ms q level n hl hd t' att h]
  dsimp only
  rw [extract_ok { cols := b.frame.cols, rows := b.frame.rows.take n } n hg he]
  refine ⟨_, rfl, ?_, ?_, ?_, ?_⟩
  · dsimp [DataFrame.col]
    rw [← List.map_take, List.take_take, Nat.min_self]
  · simp [DataFrame.col, List.length_take]
  · simp [DataFrame.col, List.length_take]
  · intro hlt
    simp [DataFrame.col, List.length_take]
    omega

/-- C6, witness: asking for ten terms from the three-record demo backend
returns exactly the three stored terms in order. -/
theorem c6_witness :
    validLevels.contains "A1" = true ∧ demoBackend.dbDirExists = true ∧
    (openTableStep demoBackend ("A1" ++ "_MINIMAL_vocabulary")).1.isSome = true ∧
    "german_term" ∈ demoBackend.frame.cols ∧
    "english_translation" ∈ demoBackend.frame.cols ∧
    (∃ terms,
      (fetch_vocab_from_vector_db demoBackend initModelState "food" "A1" 10).1 =
        .ok terms ∧
      terms = (demoBackend.frame.rows.take 10).map
          (fun row => cellVal demoBackend.frame.cols row "german_term") ∧
      terms.length = min 10 demoBackend.frame.rows.length ∧
      terms.length ≤ 10 ∧
      (demoBackend.frame.rows.length < 10 →
        terms.length = demoBackend.frame.rows.length)) :=
  ⟨rfl, rfl, rfl, by decide, by decide,
   c6_order_and_truncation demoBackend initModelState "food" "A1" 10
     rfl rfl rfl (by decide) (by decide)⟩

/-- C8: when every open attempt fails for a valid level, the call fails
with the index-not-found error whose message parts carry the attempted
table names, the backend-reported table list whenever one was obtained,
and the resolved storage path. -/
theorem c8_diagnostic_failure (b : Backend) (ms : ModelState)
    (q level : String) (n : Nat)
    (hl : validLevels.contains level = true)
    (hd : b.dbDirExists = true)
    (hfail : ∀ s, b.openOk s = false) :
    (fetch_vocab_from_vector_db b ms q level n).1 =
      .error (.indexNotFound (fetchFailParts b level)) ∧
    (∃ p ∈ fetchFailParts b level,
       strContains p (chooseTableName (level ++ "_MINIMAL_vocabulary") b.apiTables) ∧
       strContains p (level ++ "_MINIMAL_vocabulary")) ∧
    (b.apiTables ≠ [] →
       ∃ p ∈ fetchFailParts b level, strContains p (showStrList b.apiTables)) ∧
    (∃ p ∈ fetchFailParts b level, strContains p b.dbPath) := by
  obtain ⟨att, hstep⟩ :=
    openTableStep_all_fail b (level ++ "_MINIMAL_vocabulary") hfail
  refine ⟨?_, failMsgParts_carries _ _ _ _ _⟩
  rw [fetch_vocab_fail_eq b ms q level n hl hd att hstep]
  rfl

/-- C8, witness: the diagnostic failure on a backend where nothing
opens. -/
theorem c8_witness :
    validLevels.contains "A1" = true ∧ noOpenBackend.dbDirExists = true ∧
    (∀ s, noOpenBackend.openOk s = false) ∧
    ((fetch_vocab_from_vector_db noOpenBackend initModelState "food" "A1" 10).1 =
       .error (.indexNotFound (fetchFailParts noOpenBackend "A1")) ∧
     (∃ p ∈ fetchFailParts noOpenBackend "A1",
        strContains p
          (chooseTableName ("A1" ++ "_MINIMAL_vocabulary") noOpenBackend.apiTables) ∧
        strContains p ("A1" ++ "_MINIMAL_vocabulary")) ∧
     (noOpenBackend.apiTables ≠ [] →
        ∃ p ∈ fetchFailParts noOpenBackend "A1",
          strContains p (showStrList noOpenBackend.apiTables)) ∧
     (∃ p ∈ fetchFailParts noOpenBackend "A1",
        strContains p noOpenBackend.dbPath)) :=
  ⟨rfl, rfl, fun _ => rfl,
   c8_diagnostic_failure noOpenBackend initModelState "food" "A1" 10
     rfl rfl (fun _ => rfl)⟩

/-- C9: on a successful call whose frame has the expected schema, the
returned terms are exactly the (first n values of the) german_term column
of the searched rows: the projection leaves only german_term and
english_translation, so no probed candidate column name can match and
the first-column fallback selects german_term. -/
theorem c9_german_term_column (b : Backend) (ms : ModelState)
    (q level : String) (n : Nat)
    (hl : validLevels.contains level = true)
    (hd : b.dbDirExists = true)
    (hopen : (openTableStep b (level ++ "_MINIMAL_vocabulary")).1.isSome = true)
    (hg : "german_term" ∈ b.frame.cols)
    (he : "english_translation" ∈ b.frame.cols) :
    (fetch_vocab_from_vector_db b ms q level n).1 =
      .ok ((DataFrame.col
        { cols := b.frame.cols, rows := b.frame.rows.take n } "german_term").take n) ∧
    probeColumns.find?
      (fun col => (["german_term", "english_translation"] : List String).contains col)
      = none := by
  obtain ⟨t', att, h⟩ :
      ∃ t' att, openTableStep b (level ++ "_MINIMAL_vocabulary") = (some t', att) := by
    rcases hh : openTableStep b (level ++ "_MINIMAL_vocabulary") with ⟨o, att⟩
    cases o with
    | none => rw [hh] at hopen; simp at hopen
    | some t' => exact ⟨t', att, rfl⟩
  rw [fetch_vocab_success_eq b ms q level n hl hd t' att h]
  exact ⟨extract_ok { cols := b.frame.cols, rows := b.frame.rows.take n } n hg he, rfl⟩

/-- C9, witness: the demo backend's two terms for n = 2 come from the
german_term column. -/
theorem c9_witness :
    validLevels.contains "A1" = true ∧ demoBackend.dbDirExists = true ∧
    (openTableStep demoBackend ("A1" ++ "_MINIMAL_vocabulary")).1.isSome = true ∧
    "german_term" ∈ demoBackend.frame.cols ∧
    "english_translation" ∈ demoBackend.frame.cols ∧
    ((fetch_vocab_from_vector_db demoBackend initModelState "food" "A1" 2).1 =
       .ok ((DataFrame.col
         { cols := demoBackend.frame.cols
         , rows := demoBackend.frame.rows.take 2 } "german_term").take 2) ∧
     probeColumns.find?
       (fun col => (["german_term", "english_translation"] : List String).contains col)
       = none) :=
  ⟨rfl, rfl, rfl, by decide, by decide,
   c9_german_term_column demoBackend initModelState "food" "A1" 2
     rfl rfl rfl (by decide) (by decide)⟩

end SkyHigh
